import Mathlib

/-!
Verification of the graph-based workflow execution engine described by the
repository's specification, together with the demo workflows of the
repository (`task2` shopping cart, `task3` linear pipeline, `task4` email
routing, `task5` iterative-refinement loop, `task7` memory accumulation).

The demo node and router functions are shallow embeddings of the Python
functions in `src/`.  The engine itself (graph walking, state merging,
routing dispatch, step ceiling) is the LangGraph library, which is not part
of the repository's sources; it is modelled here from the specification's
§4.3 executor algorithm, with a fuel-style per-invocation step counter.
-/

namespace Workshop

/-! ## Strings: Python `in` (substring test) and `str.lower` -/

/-- Character-list version of "needle is a prefix of hay". -/
def matchesAt : List Char → List Char → Bool
  | [], _ => true
  | _ :: _, [] => false
  | a :: as, b :: bs => a == b && matchesAt as bs

/-- Character-list version of "needle occurs somewhere in hay". -/
def charsContains (needle : List Char) : List Char → Bool
  | [] => needle.isEmpty
  | c :: rest => matchesAt needle (c :: rest) || charsContains needle rest

/-- Python's `needle in hay` on strings (substring containment). -/
def containsSub (needle hay : String) : Bool :=
  charsContains needle.toList hay.toList

/-- Python's `s.lower()` (for the ASCII texts used in the demos). -/
def lower (s : String) : String :=
  String.mk (s.toList.map Char.toLower)

/-! ## Data model: the State container (spec §3)

A State is an ordered mapping from field name to value; values in the demo
workflows are strings, numbers (modelled exactly as rationals), Python
ints (naturals in the demos), or lists of strings. -/

inductive Value where
  | vStr : String → Value
  | vNum : ℚ → Value
  | vNat : ℕ → Value
  | vList : List String → Value
deriving DecidableEq

/-- A state (or a partial update): an ordered mapping field name → value. -/
abbrev PState := List (String × Value)

/-- Read a string field (Python `state["k"]` on a string-typed field). -/
def getStr (st : PState) (k : String) : String :=
  match st.lookup k with
  | some (.vStr s) => s
  | _ => ""

/-- Read a numeric field. -/
def getNum (st : PState) (k : String) : ℚ :=
  match st.lookup k with
  | some (.vNum q) => q
  | _ => 0

/-- Read an integer field. -/
def getNat (st : PState) (k : String) : ℕ :=
  match st.lookup k with
  | some (.vNat n) => n
  | _ => 0

/-- Read a list-of-strings field. -/
def getList (st : PState) (k : String) : List String :=
  match st.lookup k with
  | some (.vList l) => l
  | _ => []

/-- Modelled from the spec: the executor's merge step (§4.3c).  The engine
that performs the merge is the LangGraph library, absent from the sources.
For each field present in the update, the corresponding field of the
current state is replaced with the update's value (whole-value
replacement); fields absent from the update are untouched; update fields
not yet present in the state are appended. -/
def mergeUpdate (st upd : PState) : PState :=
  (st.map fun p =>
    match upd.lookup p.1 with
    | some v => (p.1, v)
    | none => p) ++
  upd.filter fun p => (st.lookup p.1).isNone

/-! ## The engine (spec §4.2–§4.3), modelled from the spec -/

/-- A transition target: a node key or the terminal marker (`END`). -/
inductive Dest where
  | terminal : Dest
  | node : String → Dest
deriving DecidableEq

/-- A step function `(State) -> PartialUpdate`; failure aborts the run. -/
abbrev StepFn := PState → Except String PState

/-- A router function `(State) -> RouteLabel`; failure aborts the run. -/
abbrev RouterFn := PState → Except String String

/-- Modelled from the spec: a node's outgoing edge group (§3) — either one
fixed edge or one conditional edge group with a label→target mapping. -/
inductive EdgeSpec where
  | fixed : Dest → EdgeSpec
  | cond : RouterFn → List (String × Dest) → EdgeSpec

/-- Modelled from the spec: a compiled graph (§4.2) — the node registry,
the edge table and the entry node key.  Compilation itself is performed by
the LangGraph library, absent from the sources. -/
structure Graph where
  nodes : List (String × StepFn)
  edges : List (String × EdgeSpec)
  entry : String

/-- The node keys registered in a graph. -/
def nodeKeys (g : Graph) : List String := g.nodes.map Prod.fst

/-- Modelled from the spec: the run-time error taxonomy (§7). -/
inductive EngineError where
  | stepLimitExceeded : EngineError
  | unroutableLabel : String → String → EngineError
  | invocationError : String → String → EngineError
  | unknownNode : String → EngineError
  | missingEdge : String → EngineError
deriving DecidableEq

/-- Modelled from the spec: one iteration of the executor loop (§4.3 b–d)
at node `k` — invoke the step function, merge its partial update, then
determine the next destination (router functions are consulted on the
already-merged state).  The executor is the LangGraph library, absent from
the sources. -/
def stepOnce (g : Graph) (k : String) (st : PState) :
    Except EngineError (Dest × PState) :=
  match g.nodes.lookup k with
  | none => .error (.unknownNode k)
  | some f =>
    match f st with
    | .error msg => .error (.invocationError k msg)
    | .ok upd =>
      match g.edges.lookup k with
      | none => .error (.missingEdge k)
      | some (.fixed d) => .ok (d, mergeUpdate st upd)
      | some (.cond router mapping) =>
        match router (mergeUpdate st upd) with
        | .error msg => .error (.invocationError k msg)
        | .ok label =>
          match mapping.lookup label with
          | none => .error (.unroutableLabel k label)
          | some d => .ok (d, mergeUpdate st upd)

/-- Modelled from the spec: the executor's main loop (§4.3) with the
per-invocation step counter and hard ceiling (§4.3 e), expressed as fuel.
Returns the execution trace (the node keys actually visited, §3) together
with the final state or the run-time error.  The executor is the LangGraph
library, absent from the sources. -/
def runT (g : Graph) : ℕ → Dest → PState → List String × Except EngineError PState
  | _, .terminal, st => ([], .ok st)
  | 0, .node _, _ => ([], .error .stepLimitExceeded)
  | fuel + 1, .node k, st =>
    match stepOnce g k st with
    | .error e => ([k], .error e)
    | .ok (d, merged) =>
      let r := runT g fuel d merged
      (k :: r.1, r.2)

/-- Modelled from the spec: `invoke(initial_state) -> final_state | error`
(§4.2, §6) with step ceiling `c`. -/
def invoke (g : Graph) (c : ℕ) (st : PState) : Except EngineError PState :=
  (runT g c (.node g.entry) st).2

/-- The node keys visited during an invocation (the execution trace). -/
def visits (g : Graph) (c : ℕ) (st : PState) : List String :=
  (runT g c (.node g.entry) st).1

/-- Whether the execution starting at `d` reaches the terminal marker
within the given number of node executions. -/
def reachesTerminal (g : Graph) : ℕ → Dest → PState → Bool
  | _, .terminal, _ => true
  | 0, .node _, _ => false
  | fuel + 1, .node k, st =>
    match stepOnce g k st with
    | .error _ => false
    | .ok (d, merged) => reachesTerminal g fuel d merged

/-- All destinations an edge group can transition to. -/
def destsOf : EdgeSpec → List Dest
  | .fixed d => [d]
  | .cond _ m => m.map Prod.snd

/-- `rankOkB rank k d` says destination `d` is either terminal or a node of
strictly smaller rank than `k` — the decidable acyclicity certificate used
for directed-acyclic graphs. -/
def rankOkB (rank : String → ℕ) (k : String) : Dest → Bool
  | .terminal => true
  | .node j => rank j < rank k

/-! ## Task 2: shopping-cart workflow (`src/task2/stategraph_demo.py`) -/

namespace Task2

/-- `add_apple`: appends `"apple"` to the cart and adds 5 to the total. -/
def add_apple (st : PState) : Except String PState :=
  .ok [("items", .vList (getList st "items" ++ ["apple"])),
       ("total", .vNum (getNum st "total" + 5))]

/-- `add_banana`: appends `"banana"` to the cart and adds 3 to the total. -/
def add_banana (st : PState) : Except String PState :=
  .ok [("items", .vList (getList st "items" ++ ["banana"])),
       ("total", .vNum (getNum st "total" + 3))]

/-- `checkout`: returns only the new `status`. -/
def checkout (_st : PState) : Except String PState :=
  .ok [("status", .vStr "paid")]

/-- The compiled task2 graph: `add_apple → add_banana → checkout → END`. -/
def graph : Graph where
  nodes := [("add_apple", add_apple), ("add_banana", add_banana),
            ("checkout", checkout)]
  edges := [("add_apple", .fixed (.node "add_banana")),
            ("add_banana", .fixed (.node "checkout")),
            ("checkout", .fixed .terminal)]
  entry := "add_apple"

end Task2

/-! ## Task 3: four-node linear pipeline (`src/task3/nodes_demo.py`) -/

namespace Task3

/-- `input_node`: strips the incoming text. -/
def input_node (st : PState) : Except String PState :=
  .ok [("text", .vStr (getStr st "text").trim)]

/-- Python `len(s.split())`: number of maximal whitespace-free words. -/
def wordCount (s : String) : ℕ :=
  ((s.split Char.isWhitespace).filter fun w => !w.isEmpty).length

/-- `analyze_node`: counts words of the text. -/
def analyze_node (st : PState) : Except String PState :=
  .ok [("word_count", .vNat (wordCount (getStr st "text")))]

def positive_words : List String := ["good", "great", "excellent", "happy", "amazing"]

def negative_words : List String := ["bad", "terrible", "awful", "horrible", "sad"]

/-- `sentiment_node`: counts positive/negative keywords and classifies. -/
def sentiment_node (st : PState) : Except String PState :=
  let text_lower := lower (getStr st "text")
  let pos_count := positive_words.countP fun w => containsSub w text_lower
  let neg_count := negative_words.countP fun w => containsSub w text_lower
  let sentiment :=
    if neg_count < pos_count then "positive 😊"
    else if pos_count < neg_count then "negative 😔"
    else if getNat st "word_count" < 5 then "neutral 😐"
    else "mixed 🤔"
  .ok [("sentiment", .vStr sentiment)]

/-- A row of 40 `=` characters (`'='*40`). -/
def eqRow : String := String.mk (List.replicate 40 '=')

/-- `output_node`: formats the final report string. -/
def output_node (st : PState) : Except String PState :=
  let text := getStr st "text"
  let out :=
    "\n" ++ eqRow ++ "\n" ++ "📊 ANALYSIS COMPLETE\n" ++ eqRow ++ "\n" ++
    "📝 Text: '" ++ text.take 50 ++ (if 50 < text.length then "..." else "") ++
    "'\n" ++ "📏 Word Count: " ++ toString (getNat st "word_count") ++
    " words\n" ++ "💭 Sentiment: " ++ getStr st "sentiment" ++ "\n" ++ eqRow
  .ok [("output", .vStr out)]

/-- The compiled task3 graph: `input → analyze → sentiment → output → END`. -/
def graph : Graph where
  nodes := [("input", input_node), ("analyze", analyze_node),
            ("sentiment", sentiment_node), ("output", output_node)]
  edges := [("input", .fixed (.node "analyze")),
            ("analyze", .fixed (.node "sentiment")),
            ("sentiment", .fixed (.node "output")),
            ("output", .fixed .terminal)]
  entry := "input"

end Task3

/-! ## Task 4: email routing workflow (`src/task4/edges_routing_demo.py`) -/

namespace Task4

def spam_words : List String := ["free", "winner", "click here"]

/-- The spam score computed by `analyze_email`:
`sum(1 for word in spam_words if word in text) / 3` on the lowered text. -/
def spamScore (email_text : String) : ℚ :=
  ((spam_words.countP fun w => containsSub w (lower email_text) : ℕ) : ℚ) / 3

/-- `analyze_email`: returns only the new `spam_score`. -/
def analyze_email (st : PState) : Except String PState :=
  .ok [("spam_score", .vNum (spamScore (getStr st "email_text")))]

/-- `process_normal`. -/
def process_normal (_st : PState) : Except String PState :=
  .ok [("category", .vStr "inbox"), ("priority", .vStr "normal")]

/-- `process_spam`. -/
def process_spam (_st : PState) : Except String PState :=
  .ok [("category", .vStr "spam"), ("priority", .vStr "blocked")]

/-- `process_important`. -/
def process_important (_st : PState) : Except String PState :=
  .ok [("category", .vStr "inbox"), ("priority", .vStr "high")]

/-- `email_router`: routes on the spam score and on urgency keywords. -/
def email_router (st : PState) : Except String String :=
  if (0.6 : ℚ) < getNum st "spam_score" then .ok "spam"
  else if containsSub "urgent" (lower (getStr st "email_text")) ||
          containsSub "important" (lower (getStr st "email_text")) then
    .ok "important"
  else .ok "normal"

/-- The label→target mapping registered by `add_conditional_edges`. -/
def labelMap : List (String × Dest) :=
  [("spam", .node "spam"), ("important", .node "important"),
   ("normal", .node "normal")]

/-- The compiled task4 graph. -/
def graph : Graph where
  nodes := [("analyze", analyze_email), ("normal", process_normal),
            ("spam", process_spam), ("important", process_important)]
  edges := [("analyze", .cond email_router labelMap),
            ("spam", .fixed .terminal),
            ("important", .fixed .terminal),
            ("normal", .fixed .terminal)]
  entry := "analyze"

/-- The shape of every `EmailState` (the four declared fields). -/
def emailState (t : String) (sc : ℚ) (c p : String) : PState :=
  [("email_text", .vStr t), ("spam_score", .vNum sc),
   ("category", .vStr c), ("priority", .vStr p)]

end Task4

/-! ## Task 5: iterative-refinement loop (`src/task5/loops_demo.py`) -/

namespace Task5

/-- The search-results string produced at a given iteration index. -/
def searchResults (iteration : ℕ) (query : String) : String :=
  if iteration == 0 then "Basic results for: " ++ query
  else if iteration == 1 then
    "Detailed results for: " ++ query ++ " with more context"
  else "Comprehensive results for: " ++ query ++ " with citations and examples"

/-- `search_node`: simulated search plus `iteration + 1`. -/
def search_node (st : PState) : Except String PState :=
  .ok [("search_results", .vStr (searchResults (getNat st "iteration") (getStr st "query"))),
       ("iteration", .vNat (getNat st "iteration" + 1))]

/-- The quality score `evaluate_node` assigns to a results string. -/
def evalScore (results : String) : ℚ :=
  if containsSub "comprehensive" (lower results) then 0.9
  else if containsSub "detailed" (lower results) then 0.6
  else 0.3

/-- `evaluate_node`: returns only the new `quality_score`. -/
def evaluate_node (st : PState) : Except String PState :=
  .ok [("quality_score", .vNum (evalScore (getStr st "search_results")))]

/-- The prompt `summarize_node` sends to the external language model. -/
def summaryPrompt (st : PState) : String :=
  "Based on these search results, provide a concise answer:\n    Query: " ++
  getStr st "query" ++ "\n    Results: " ++ getStr st "search_results" ++
  "\n    \n    Answer:"

/-- `summarize_node`, parametrized by the external language model's
response function (calling the model is outside the specified core). -/
def summarize_node (llmAns : String → String) (st : PState) :
    Except String PState :=
  .ok [("final_answer", .vStr (llmAns (summaryPrompt st)))]

/-- `should_continue`: exit to `summarize` at the iteration cap or once the
quality threshold is met, else loop back to `search`. -/
def should_continue (st : PState) : Except String String :=
  if getNat st "max_iterations" ≤ getNat st "iteration" then .ok "summarize"
  else if (0.8 : ℚ) ≤ getNum st "quality_score" then .ok "summarize"
  else .ok "search"

/-- The label→target mapping of the loop's conditional edge. -/
def labelMap : List (String × Dest) :=
  [("search", .node "search"), ("summarize", .node "summarize")]

/-- The compiled task5 graph with its `evaluate → search` back edge. -/
def graph (llmAns : String → String) : Graph where
  nodes := [("search", search_node), ("evaluate", evaluate_node),
            ("summarize", summarize_node llmAns)]
  edges := [("search", .fixed (.node "evaluate")),
            ("evaluate", .cond should_continue labelMap),
            ("summarize", .fixed .terminal)]
  entry := "search"

/-- The shape of every `ResearchState` (the six declared fields). -/
def researchState (q r : String) (s : ℚ) (i m : ℕ) (a : String) : PState :=
  [("query", .vStr q), ("search_results", .vStr r),
   ("quality_score", .vNum s), ("iteration", .vNat i),
   ("max_iterations", .vNat m), ("final_answer", .vStr a)]

end Task5

/-! ## Task 7: memory accumulation (`src/task7/memory_demo.py`)

`search_node` obtains the list object stored in `state["search_results"]`
via `state.get(...)` and then calls `.append(...)` on it.  In Python the
obtained list is the very object held by the state dictionary, so the
appends mutate the given state in place.  The embedding returns both the
state object as it is after the call and the returned partial update. -/

namespace Task7

/-- The simulated search-result string for one question. -/
def resultFor (topic question : String) : String :=
  "Result for '" ++ question.take 30 ++
  "...': Found relevant information about " ++ topic

/-- `search_node`, modelling the Python aliasing of the
`search_results` list: the first component is the state object after the
call (the in-place appends included), the second is the returned partial
update. -/
def search_node_run (st : PState) : PState × PState :=
  let results := getList st "search_results" ++
    (getList st "questions").map (resultFor (getStr st "topic"))
  let stAfter := st.map fun p =>
    match p with
    | ("search_results", .vList _) => ("search_results", Value.vList results)
    | q => q
  (stAfter,
   [("search_results", .vList results),
    ("operations_count", .vNat (getNat st "operations_count" + 1))])

end Task7

/-! ## The specification's loop scenario (§8)

The spec's concrete loop scenario keeps task5's `search` node and
`should_continue` router but abstracts over the quality profile: "node
`evaluate` setting `quality` … given quality that reaches 0.8 on
iteration 2". -/

namespace Task5S

/-- Modelled from the spec: the §8 scenario's `evaluate` node — it sets
`quality` for the current iteration according to the run's quality
profile `qual` (the concrete profile is abstracted by the scenario). -/
def evaluateWith (qual : ℕ → ℚ) (st : PState) : Except String PState :=
  .ok [("quality_score", .vNum (qual (getNat st "iteration")))]

/-- Modelled from the spec: the scenario's `summarize` node, whose answer
text (produced by an external model in task5) is a parameter. -/
def summarizeConst (ans : String) (_st : PState) : Except String PState :=
  .ok [("final_answer", .vStr ans)]

/-- The scenario graph: task5's loop shape with the abstracted evaluate. -/
def graph (qual : ℕ → ℚ) (ans : String) : Graph where
  nodes := [("search", Task5.search_node), ("evaluate", evaluateWith qual),
            ("summarize", summarizeConst ans)]
  edges := [("search", .fixed (.node "evaluate")),
            ("evaluate", .cond Task5.should_continue Task5.labelMap),
            ("summarize", .fixed .terminal)]
  entry := "search"

end Task5S

/-! ## Association-list lookup lemmas for the merge -/

theorem lookup_append_some {l₁ l₂ : PState} {k : String} {v : Value}
    (h : l₁.lookup k = some v) : (l₁ ++ l₂).lookup k = some v := by
  induction l₁ with
  | nil => simp [List.lookup] at h
  | cons p rest ih =>
    obtain ⟨a, w⟩ := p
    cases hka : (k == a) <;>
      simp only [List.lookup, hka, List.cons_append] at h ⊢ <;>
      [exact ih h; exact h]

theorem lookup_append_none {l₁ : PState} (l₂ : PState) {k : String}
    (h : l₁.lookup k = none) : (l₁ ++ l₂).lookup k = l₂.lookup k := by
  induction l₁ with
  | nil => rfl
  | cons p rest ih =>
    obtain ⟨a, w⟩ := p
    cases hka : (k == a) <;>
      simp only [List.lookup, hka, List.cons_append] at h ⊢
    · exact ih h
    · exact absurd h (by simp)

/-- Looking a key up in the replaced-fields part of the merge. -/
theorem lookup_map_replace (st upd : PState) (k : String) :
    (st.map fun p =>
      match upd.lookup p.1 with
      | some v => (p.1, v)
      | none => p).lookup k
      = (st.lookup k).map fun w => (upd.lookup k).getD w := by
  induction st with
  | nil => rfl
  | cons p rest ih =>
    obtain ⟨a, w⟩ := p
    by_cases hka : k = a
    · subst hka
      cases hu : upd.lookup k <;> simp [List.lookup, hu]
    · have hb : (k == a) = false := by simpa using hka
      cases hu : upd.lookup a <;> simp [List.lookup, hu, hb, ih]

/-- Filtering an update to its fresh keys preserves lookups of fresh keys. -/
theorem lookup_filter_fresh {st : PState} (upd : PState) {k : String}
    (h : st.lookup k = none) :
    (upd.filter fun p => (st.lookup p.1).isNone).lookup k = upd.lookup k := by
  induction upd with
  | nil => rfl
  | cons p rest ih =>
    obtain ⟨a, v⟩ := p
    by_cases hka : k = a
    · subst hka
      simp [List.filter, h, List.lookup, ih]
    · have hb : (k == a) = false := by simpa using hka
      cases hp : (st.lookup a).isNone <;>
        simp [List.filter, hp, List.lookup, hb, ih]

/-- A field present in the update is, after the merge, the update's value. -/
theorem lookup_mergeUpdate_some {st upd : PState} {k : String} {v : Value}
    (h : upd.lookup k = some v) : (mergeUpdate st upd).lookup k = some v := by
  unfold mergeUpdate
  cases hst : st.lookup k with
  | some w =>
    refine lookup_append_some ?_
    rw [lookup_map_replace, hst, h]
    rfl
  | none =>
    have h1 : (st.map fun p =>
        match upd.lookup p.1 with
        | some v => (p.1, v)
        | none => p).lookup k = none := by
      rw [lookup_map_replace, hst]
      rfl
    rw [lookup_append_none (upd.filter fun p => (st.lookup p.1).isNone) h1,
        lookup_filter_fresh upd hst, h]

/-- A field absent from the update keeps its value across the merge. -/
theorem lookup_mergeUpdate_none {st upd : PState} {k : String}
    (h : upd.lookup k = none) :
    (mergeUpdate st upd).lookup k = st.lookup k := by
  unfold mergeUpdate
  cases hst : st.lookup k with
  | some w =>
    refine lookup_append_some ?_
    rw [lookup_map_replace, hst, h]
    rfl
  | none =>
    have h1 : (st.map fun p =>
        match upd.lookup p.1 with
        | some v => (p.1, v)
        | none => p).lookup k = none := by
      rw [lookup_map_replace, hst]
      rfl
    rw [lookup_append_none (upd.filter fun p => (st.lookup p.1).isNone) h1,
        lookup_filter_fresh upd hst, h]

/-! ## Executor unfolding lemmas -/

theorem runT_terminal (g : Graph) (fuel : ℕ) (st : PState) :
    runT g fuel .terminal st = ([], .ok st) := by
  cases fuel <;> rfl

theorem runT_cons {g : Graph} (fuel : ℕ) {k : String} {st : PState}
    {d : Dest} {merged : PState} (h : stepOnce g k st = .ok (d, merged)) :
    runT g (fuel + 1) (.node k) st =
      ((k :: (runT g fuel d merged).1), (runT g fuel d merged).2) := by
  simp [runT, h]

theorem runT_error {g : Graph} (fuel : ℕ) {k : String} {st : PState}
    {e : EngineError} (h : stepOnce g k st = .error e) :
    runT g (fuel + 1) (.node k) st = ([k], .error e) := by
  simp [runT, h]

example :
    visits Task2.graph 25
      [("items", .vList []), ("total", .vNum 0), ("status", .vStr "pending")]
    = ["add_apple", "add_banana", "checkout"] := by
  rfl

/-! ## Claim C2: merge is last-write-wins per field -/

/-- C2: the merge of a node's partial update into the current state is
last-write-wins per field with whole-value replacement — every field
present in the update takes the update's value after the merge, and every
field absent from the update keeps its previous value. -/
theorem merge_last_write_wins (st upd : PState) (k : String) :
    (∀ v, upd.lookup k = some v → (mergeUpdate st upd).lookup k = some v) ∧
    (upd.lookup k = none → (mergeUpdate st upd).lookup k = st.lookup k) :=
  ⟨fun _ h => lookup_mergeUpdate_some h, fun h => lookup_mergeUpdate_none h⟩

/-- The cart state reaching `checkout` in the task2 run. -/
def cartSt : PState :=
  [("items", .vList ["apple", "banana"]), ("total", .vNum 8),
   ("status", .vStr "pending")]

/-- The partial update `checkout` returns. -/
def cartUpd : PState := [("status", .vStr "paid")]

/-- Witness for C2 on the task2 checkout: the merged state takes the new
`status` and keeps the accumulated `items` and `total`. -/
theorem merge_last_write_wins_witness :
    Task2.checkout cartSt = .ok cartUpd ∧
    (mergeUpdate cartSt cartUpd).lookup "status" = some (.vStr "paid") ∧
    (mergeUpdate cartSt cartUpd).lookup "items" =
      some (.vList ["apple", "banana"]) ∧
    (mergeUpdate cartSt cartUpd).lookup "total" = some (.vNum 8) :=
  ⟨rfl,
   (merge_last_write_wins cartSt cartUpd "status").1 _ rfl,
   ((merge_last_write_wins cartSt cartUpd "items").2 rfl).trans rfl,
   ((merge_last_write_wins cartSt cartUpd "total").2 rfl).trans rfl⟩

/-! ## Claim C1: routing is evaluated on the already-merged state -/

/-- C1: when a node with a conditional edge group finishes, its partial
update is merged into the current state before the router is consulted:
the destination the run continues at is the mapping entry for the label
the router yields on `mergeUpdate st upd`, never on the pre-update `st`. -/
theorem routing_sees_merged_state {g : Graph} (fuel : ℕ) {k : String}
    {st upd : PState} {f : StepFn} {router : RouterFn}
    {mapping : List (String × Dest)} {lbl : String} {d : Dest}
    (hn : g.nodes.lookup k = some f) (hf : f st = .ok upd)
    (he : g.edges.lookup k = some (.cond router mapping))
    (hr : router (mergeUpdate st upd) = .ok lbl)
    (hm : mapping.lookup lbl = some d) :
    runT g (fuel + 1) (.node k) st =
      ((k :: (runT g fuel d (mergeUpdate st upd)).1),
       (runT g fuel d (mergeUpdate st upd)).2) := by
  have hstep : stepOnce g k st = .ok (d, mergeUpdate st upd) := by
    simp [stepOnce, hn, hf, he, hr, hm]
  exact runT_cons fuel hstep

/-- The "winner" test email of the task4 demo. -/
def winnerEmail : String := "You are a WINNER! Click here for FREE prize!"

/-- The task4 initial state for the winner email. -/
def winnerInit : PState := Task4.emailState winnerEmail 0 "" ""

/-- The partial update `analyze_email` returns on the winner email. -/
def winnerUpd : PState :=
  [("spam_score", .vNum (Task4.spamScore winnerEmail))]

/-- The spam score of the winner email is 1 (all three spam words hit). -/
theorem winner_score : Task4.spamScore winnerEmail = 1 := by
  have h : (Task4.spam_words.countP fun w => containsSub w (lower winnerEmail))
      = 3 := by decide
  simp only [Task4.spamScore, h]
  norm_num

/-- On the merged state the router classifies the winner email as spam. -/
theorem winner_router :
    Task4.email_router (mergeUpdate winnerInit winnerUpd) = .ok "spam" := by
  have h1 : getNum (mergeUpdate winnerInit winnerUpd) "spam_score"
      = Task4.spamScore winnerEmail := rfl
  rw [Task4.email_router, h1, winner_score, if_pos (by norm_num)]

/-- On the pre-update state (spam score still 0) the router does not
classify the winner email as spam. -/
theorem winner_router_pre : Task4.email_router winnerInit = .ok "normal" := by
  have h0 : getNum winnerInit "spam_score" = 0 := rfl
  simp only [Task4.email_router, h0]
  rw [if_neg (by norm_num)]
  rfl

/-- Witness for C1 on the task4 winner email: the run out of `analyze`
continues at the `spam` node chosen by the router on the merged state
(on the pre-update state the router would have said `normal`). -/
theorem routing_sees_merged_state_witness :
    runT Task4.graph 25 (.node "analyze") winnerInit =
      (("analyze" :: (runT Task4.graph 24 (.node "spam")
        (mergeUpdate winnerInit winnerUpd)).1),
       (runT Task4.graph 24 (.node "spam")
        (mergeUpdate winnerInit winnerUpd)).2) ∧
    Task4.email_router winnerInit = .ok "normal" :=
  ⟨routing_sees_merged_state 24 rfl rfl rfl winner_router rfl,
   winner_router_pre⟩

/-! ## Claim C4: step/router failures abort and propagate with context -/

/-- C4: a step function or router function that fails aborts the
invocation at once — the result is an `InvocationError` wrapping the
original failure message together with the node key at which it occurred,
no final state is produced, and nothing is retried or suppressed. -/
theorem failure_propagates (g : Graph) (fuel : ℕ) (k : String) (st : PState) :
    (∀ f msg, g.nodes.lookup k = some f → f st = .error msg →
      runT g (fuel + 1) (.node k) st =
        ([k], .error (.invocationError k msg))) ∧
    (∀ f upd router mapping msg, g.nodes.lookup k = some f →
      f st = .ok upd →
      g.edges.lookup k = some (.cond router mapping) →
      router (mergeUpdate st upd) = .error msg →
      runT g (fuel + 1) (.node k) st =
        ([k], .error (.invocationError k msg))) := by
  constructor
  · intro f msg hn hf
    exact runT_error fuel (by simp [stepOnce, hn, hf])
  · intro f upd router mapping msg hn hf he hr
    exact runT_error fuel (by simp [stepOnce, hn, hf, he, hr])

/-- A step function that always fails. -/
def failStep : StepFn := fun _ => .error "tool call failed"

/-- A graph whose entry node's step function fails. -/
def failGraph : Graph where
  nodes := [("boom", failStep)]
  edges := [("boom", .fixed .terminal)]
  entry := "boom"

/-- A router function that always fails. -/
def failRouter : RouterFn := fun _ => .error "router crashed"

/-- An always-succeeding step function with an empty update. -/
def idleStep : StepFn := fun _ => .ok []

/-- A graph whose entry node's router fails. -/
def failRouterGraph : Graph where
  nodes := [("pick", idleStep)]
  edges := [("pick", .cond failRouter [])]
  entry := "pick"

/-- Witness for C4: a failing step aborts with `InvocationError "boom" …`,
and a failing router aborts with `InvocationError "pick" …`. -/
theorem failure_propagates_witness :
    runT failGraph (24 + 1) (.node "boom") [] =
      (["boom"], .error (.invocationError "boom" "tool call failed")) ∧
    runT failRouterGraph (24 + 1) (.node "pick") [] =
      (["pick"], .error (.invocationError "pick" "router crashed")) :=
  ⟨(failure_propagates failGraph 24 "boom" []).1 failStep _ rfl rfl,
   (failure_propagates failRouterGraph 24 "pick" []).2 idleStep [] failRouter
     [] _ rfl rfl rfl rfl⟩

/-! ## stepOnce bridge lemmas -/

theorem stepOnce_fixed {g : Graph} {k : String} {st upd : PState}
    {f : StepFn} {d : Dest} (hn : g.nodes.lookup k = some f)
    (hf : f st = .ok upd) (he : g.edges.lookup k = some (.fixed d)) :
    stepOnce g k st = .ok (d, mergeUpdate st upd) := by
  simp [stepOnce, hn, hf, he]

theorem stepOnce_cond {g : Graph} {k : String} {st upd : PState}
    {f : StepFn} {router : RouterFn} {mapping : List (String × Dest)}
    {lbl : String} {d : Dest} (hn : g.nodes.lookup k = some f)
    (hf : f st = .ok upd) (he : g.edges.lookup k = some (.cond router mapping))
    (hr : router (mergeUpdate st upd) = .ok lbl)
    (hm : mapping.lookup lbl = some d) :
    stepOnce g k st = .ok (d, mergeUpdate st upd) := by
  simp [stepOnce, hn, hf, he, hr, hm]

/-! ## Claim C8: the task4 conditional routing can never fail -/

/-- C8: `email_router` is total and closed over the registered labels —
for every state it returns exactly one of `"spam"`, `"important"`,
`"normal"`, and each of these labels has an entry in the mapping given to
`add_conditional_edges`, so the unmapped-label error branch of the
executor is unreachable for the task4 graph. -/
theorem email_router_total (st : PState) :
    ∃ lbl, Task4.email_router st = .ok lbl ∧
      (lbl = "spam" ∨ lbl = "important" ∨ lbl = "normal") ∧
      (Task4.labelMap.lookup lbl).isSome = true := by
  unfold Task4.email_router
  split
  · exact ⟨"spam", rfl, .inl rfl, rfl⟩
  · split
    · exact ⟨"important", rfl, .inr (.inl rfl), rfl⟩
    · exact ⟨"normal", rfl, .inr (.inr rfl), rfl⟩

/-! ## Claim C10: the task4 workflow is a function of the email text -/

/-- `email_router` on a well-shaped email state, unfolded. -/
theorem email_router_on_state (t : String) (sc : ℚ) (c p : String) :
    Task4.email_router (Task4.emailState t sc c p) =
      (if (0.6 : ℚ) < sc then .ok "spam"
       else if containsSub "urgent" (lower t) ||
               containsSub "important" (lower t) then .ok "important"
       else .ok "normal") := rfl

/-- The category and priority the task4 pipeline assigns, as a function of
the email text alone (derived characterization of the three run paths). -/
def catPrio (t : String) : String × String :=
  if (0.6 : ℚ) < Task4.spamScore t then ("spam", "blocked")
  else if containsSub "urgent" (lower t) ||
          containsSub "important" (lower t) then ("inbox", "high")
  else ("inbox", "normal")

/-- The full task4 run on any well-shaped email state: `analyze` computes
the spam score, the router picks a branch from the merged state, and the
chosen process node writes the category and priority given by `catPrio`. -/
theorem task4_run (t : String) (sc : ℚ) (c p : String) :
    invoke Task4.graph 25 (Task4.emailState t sc c p) =
      .ok (Task4.emailState t (Task4.spamScore t)
        (catPrio t).1 (catPrio t).2) := by
  unfold invoke
  show (runT Task4.graph 25 (.node "analyze") (Task4.emailState t sc c p)).2
    = _
  have hup : mergeUpdate (Task4.emailState t sc c p)
      [("spam_score", Value.vNum (Task4.spamScore t))]
      = Task4.emailState t (Task4.spamScore t) c p := rfl
  by_cases h1 : (0.6 : ℚ) < Task4.spamScore t
  · have hr : Task4.email_router
        (Task4.emailState t (Task4.spamScore t) c p) = .ok "spam" := by
      rw [email_router_on_state, if_pos h1]
    have hs1 : stepOnce Task4.graph "analyze" (Task4.emailState t sc c p)
        = .ok (.node "spam", mergeUpdate (Task4.emailState t sc c p)
            [("spam_score", Value.vNum (Task4.spamScore t))]) := by
      exact stepOnce_cond rfl rfl rfl hr rfl
    rw [hup] at hs1
    have hs2 : stepOnce Task4.graph "spam"
        (Task4.emailState t (Task4.spamScore t) c p)
        = .ok (.terminal, mergeUpdate
            (Task4.emailState t (Task4.spamScore t) c p)
            [("category", Value.vStr "spam"),
             ("priority", Value.vStr "blocked")]) := by
      exact stepOnce_fixed rfl rfl rfl
    rw [show mergeUpdate (Task4.emailState t (Task4.spamScore t) c p)
        [("category", Value.vStr "spam"), ("priority", Value.vStr "blocked")]
        = Task4.emailState t (Task4.spamScore t) "spam" "blocked" from rfl]
      at hs2
    rw [show (25 : ℕ) = 24 + 1 from rfl, runT_cons 24 hs1,
        show (24 : ℕ) = 23 + 1 from rfl, runT_cons 23 hs2, runT_terminal]
    simp [catPrio, h1]
  · by_cases h2 : (containsSub "urgent" (lower t) ||
        containsSub "important" (lower t)) = true
    · have hr : Task4.email_router
          (Task4.emailState t (Task4.spamScore t) c p) = .ok "important" := by
        rw [email_router_on_state, if_neg h1, if_pos h2]
      have hs1 : stepOnce Task4.graph "analyze" (Task4.emailState t sc c p)
          = .ok (.node "important", mergeUpdate (Task4.emailState t sc c p)
              [("spam_score", Value.vNum (Task4.spamScore t))]) := by
        exact stepOnce_cond rfl rfl rfl hr rfl
      rw [hup] at hs1
      have hs2 : stepOnce Task4.graph "important"
          (Task4.emailState t (Task4.spamScore t) c p)
          = .ok (.terminal, mergeUpdate
              (Task4.emailState t (Task4.spamScore t) c p)
              [("category", Value.vStr "inbox"),
               ("priority", Value.vStr "high")]) := by
        exact stepOnce_fixed rfl rfl rfl
      rw [show mergeUpdate (Task4.emailState t (Task4.spamScore t) c p)
          [("category", Value.vStr "inbox"), ("priority", Value.vStr "high")]
          = Task4.emailState t (Task4.spamScore t) "inbox" "high" from rfl]
        at hs2
      rw [show (25 : ℕ) = 24 + 1 from rfl, runT_cons 24 hs1,
          show (24 : ℕ) = 23 + 1 from rfl, runT_cons 23 hs2, runT_terminal]
      simp [catPrio, h1, h2]
    · have hr : Task4.email_router
          (Task4.emailState t (Task4.spamScore t) c p) = .ok "normal" := by
        rw [email_router_on_state, if_neg h1, if_neg h2]
      have hs1 : stepOnce Task4.graph "analyze" (Task4.emailState t sc c p)
          = .ok (.node "normal", mergeUpdate (Task4.emailState t sc c p)
              [("spam_score", Value.vNum (Task4.spamScore t))]) := by
        exact stepOnce_cond rfl rfl rfl hr rfl
      rw [hup] at hs1
      have hs2 : stepOnce Task4.graph "normal"
          (Task4.emailState t (Task4.spamScore t) c p)
          = .ok (.terminal, mergeUpdate
              (Task4.emailState t (Task4.spamScore t) c p)
              [("category", Value.vStr "inbox"),
               ("priority", Value.vStr "normal")]) := by
        exact stepOnce_fixed rfl rfl rfl
      rw [show mergeUpdate (Task4.emailState t (Task4.spamScore t) c p)
          [("category", Value.vStr "inbox"), ("priority", Value.vStr "normal")]
          = Task4.emailState t (Task4.spamScore t) "inbox" "normal" from rfl]
        at hs2
      rw [show (25 : ℕ) = 24 + 1 from rfl, runT_cons 24 hs1,
          show (24 : ℕ) = 23 + 1 from rfl, runT_cons 23 hs2, runT_terminal]
      simp [catPrio, h1, h2]

/-- C10: the task4 workflow is deterministic — its nodes and router are
pure functions of the state, so invocations on equal initial states agree,
and in particular for any two initial email states sharing the same
`email_text` (whatever their initial scores, categories and priorities),
both invocations succeed and return the same final `category` and the same
final `priority`. -/
theorem task4_deterministic (t : String) (sc1 sc2 : ℚ) (c1 p1 c2 p2 : String) :
    ∃ fs1 fs2,
      invoke Task4.graph 25 (Task4.emailState t sc1 c1 p1) = .ok fs1 ∧
      invoke Task4.graph 25 (Task4.emailState t sc2 c2 p2) = .ok fs2 ∧
      getStr fs1 "category" = getStr fs2 "category" ∧
      getStr fs1 "priority" = getStr fs2 "priority" :=
  ⟨_, _, task4_run t sc1 c1 p1, task4_run t sc2 c2 p2, rfl, rfl⟩

/-! ## Claim C7: acyclic graphs run in at most one visit per node -/

theorem lookup_mem {β : Type} {l : List (String × β)} {a : String} {b : β}
    (h : l.lookup a = some b) : (a, b) ∈ l := by
  induction l with
  | nil => simp [List.lookup] at h
  | cons p rest ih =>
    obtain ⟨k, v⟩ := p
    cases hka : (a == k) <;> simp only [List.lookup, hka] at h
    · exact List.mem_cons_of_mem _ (ih h)
    · obtain rfl : v = b := by simpa using h
      obtain rfl : a = k := by simpa using hka
      exact List.mem_cons_self _ _

/-- A successful engine step never reports a step-limit error. -/
theorem stepOnce_error_ne_limit {g : Graph} {k : String} {st : PState}
    {e : EngineError} (h : stepOnce g k st = .error e) :
    e ≠ .stepLimitExceeded := by
  unfold stepOnce at h
  split at h
  · simp only [Except.error.injEq] at h
    simp [← h]
  · split at h
    · simp only [Except.error.injEq] at h
      simp [← h]
    · split at h
      · simp only [Except.error.injEq] at h
        simp [← h]
      · simp at h
      · split at h
        · simp only [Except.error.injEq] at h
          simp [← h]
        · split at h
          · simp only [Except.error.injEq] at h
            simp [← h]
          · simp at h

/-- The destination of an engine step is one of the registered successors
of the executed node's edge group. -/
theorem stepOnce_dest {g : Graph} {k : String} {st : PState} {d : Dest}
    {merged : PState} (h : stepOnce g k st = .ok (d, merged)) :
    ∃ e, g.edges.lookup k = some e ∧ d ∈ destsOf e := by
  unfold stepOnce at h
  split at h
  · simp at h
  · split at h
    · simp at h
    · split at h
      · simp at h
      · rename_i e he
        refine ⟨.fixed _, he, ?_⟩
        simp only [Except.ok.injEq, Prod.mk.injEq] at h
        simp [destsOf, h.1]
      · rename_i router mapping he
        split at h
        · simp at h
        · split at h
          · simp at h
          · rename_i lbl hlbl d2 hd2
            refine ⟨.cond router mapping, he, ?_⟩
            simp only [Except.ok.injEq, Prod.mk.injEq] at h
            obtain rfl : d2 = d := h.1
            exact List.mem_map_of_mem Prod.snd (lookup_mem hd2)

/-- Rank induction: along a rank-decreasing graph the run from a node `k`
with enough fuel visits only strictly lower-ranked nodes after `k`, visits
no node twice, executes at most `rank k + 1` nodes and never reports a
step-limit error. -/
theorem runT_rank {g : Graph} {rank : String → ℕ}
    (hsucc : ∀ p ∈ g.edges, ∀ d ∈ destsOf p.2, rankOkB rank p.1 d = true) :
    ∀ fuel k st, rank k < fuel →
      ∃ rest, (runT g fuel (.node k) st).1 = k :: rest ∧
        (∀ j ∈ rest, rank j < rank k) ∧ rest.Nodup ∧
        rest.length ≤ rank k ∧
        (runT g fuel (.node k) st).2 ≠ .error .stepLimitExceeded := by
  intro fuel
  induction fuel with
  | zero => exact fun k st h => absurd h (Nat.not_lt_zero _)
  | succ n ih =>
    intro k st hk
    cases hstep : stepOnce g k st with
    | error e =>
      rw [runT_error n hstep]
      refine ⟨[], rfl, by simp, List.nodup_nil, by simp, ?_⟩
      have he := stepOnce_error_ne_limit hstep
      simp [he]
    | ok pr =>
      obtain ⟨d, merged⟩ := pr
      rw [runT_cons n hstep]
      cases d with
      | terminal =>
        refine ⟨[], by simp [runT_terminal], by simp, List.nodup_nil,
          by simp, by simp [runT_terminal]⟩
      | node k2 =>
        have hrank2 : rank k2 < rank k := by
          obtain ⟨e, he, hd⟩ := stepOnce_dest hstep
          have := hsucc (k, e) (lookup_mem he) (.node k2) hd
          simpa [rankOkB] using this
        obtain ⟨rest, h1, h2, h3, h4, h5⟩ := ih k2 merged (by omega)
        refine ⟨k2 :: rest, by rw [h1], ?_, ?_, ?_, h5⟩
        · intro j hj
          rcases List.mem_cons.mp hj with rfl | hj2
          · exact hrank2
          · exact lt_trans (h2 j hj2) hrank2
        · exact List.nodup_cons.mpr
            ⟨fun hmem => absurd (h2 _ hmem) (lt_irrefl _), h3⟩
        · have := h4
          simp only [List.length_cons]
          omega

/-- C7: for every compiled graph whose edge structure is acyclic (certified
by a rank function that strictly decreases along every registered edge,
with the entry's rank below the node count), an invocation with any
ceiling of at least the node count executes at most (number of nodes)
node executions, visits each node at most once, and never hits the step
ceiling. -/
theorem dag_invoke_bounded (g : Graph) (rank : String → ℕ) (c : ℕ)
    (st : PState)
    (hsucc : ∀ p ∈ g.edges, ∀ d ∈ destsOf p.2, rankOkB rank p.1 d = true)
    (hentry : rank g.entry < g.nodes.length)
    (hc : g.nodes.length ≤ c) :
    (visits g c st).length ≤ g.nodes.length ∧ (visits g c st).Nodup ∧
      invoke g c st ≠ .error .stepLimitExceeded := by
  obtain ⟨rest, h1, h2, h3, h4, h5⟩ :=
    runT_rank hsucc c g.entry st (by omega)
  unfold visits invoke
  refine ⟨?_, ?_, h5⟩
  · rw [h1]
    simp only [List.length_cons]
    omega
  · rw [h1]
    exact List.nodup_cons.mpr
      ⟨fun hmem => absurd (h2 _ hmem) (lt_irrefl _), h3⟩

/-- A topological rank for the task3 pipeline. -/
def task3Rank : String → ℕ := fun k =>
  if k = "input" then 3 else if k = "analyze" then 2
  else if k = "sentiment" then 1 else 0

/-- The initial state of the first task3 test invocation. -/
def task3Init : PState :=
  [("text", .vStr "This is a great example of how nodes work together!")]

/-- Witness for C7 on the task3 four-node pipeline. -/
theorem dag_invoke_bounded_witness :
    (visits Task3.graph 25 task3Init).length ≤ Task3.graph.nodes.length ∧
    (visits Task3.graph 25 task3Init).Nodup ∧
    invoke Task3.graph 25 task3Init ≠ .error .stepLimitExceeded :=
  dag_invoke_bounded Task3.graph task3Rank 25 task3Init
    (by decide) (by decide) (by decide)

/-! ## Claim C3: loops terminate or hit the step ceiling, never hang -/

/-- If the run reaches the terminal marker within its fuel, it returns a
final state. -/
theorem reaches_ok {g : Graph} :
    ∀ fuel (d : Dest) (st : PState), reachesTerminal g fuel d st = true →
      ∃ fs, (runT g fuel d st).2 = .ok fs := by
  intro fuel
  induction fuel with
  | zero =>
    intro d st h
    cases d with
    | terminal => exact ⟨st, by rw [runT_terminal]⟩
    | node k => simp [reachesTerminal] at h
  | succ n ih =>
    intro d st h
    cases d with
    | terminal => exact ⟨st, by rw [runT_terminal]⟩
    | node k =>
      cases hstep : stepOnce g k st with
      | error e =>
        rw [reachesTerminal, hstep] at h
        cases h
      | ok pr =>
        obtain ⟨d2, m2⟩ := pr
        rw [reachesTerminal, hstep] at h
        obtain ⟨fs, hfs⟩ := ih d2 m2 h
        exact ⟨fs, by rw [runT_cons n hstep]; exact hfs⟩

/-- If every step from a registered node leads to another registered node
(the routers never choose a terminal-bound label and nothing fails), the
run exhausts its entire fuel and reports a step-limit error. -/
theorem runT_no_exit {g : Graph}
    (H : ∀ k s, k ∈ nodeKeys g →
      ∃ k2 s2, stepOnce g k s = .ok (.node k2, s2) ∧ k2 ∈ nodeKeys g) :
    ∀ fuel k st, k ∈ nodeKeys g →
      (runT g fuel (.node k) st).2 = .error .stepLimitExceeded ∧
      (runT g fuel (.node k) st).1.length = fuel := by
  intro fuel
  induction fuel with
  | zero => exact fun k st _ => ⟨rfl, rfl⟩
  | succ n ih =>
    intro k st hk
    obtain ⟨k2, s2, hstep, hk2⟩ := H k st hk
    rw [runT_cons n hstep]
    obtain ⟨h1, h2⟩ := ih k2 s2 hk2
    exact ⟨h1, by simp [h2]⟩

/-- C3: for a graph with a router-guarded cycle, if the routing reaches the
terminal marker within the ceiling then `invoke` returns a final state;
if every step keeps moving between registered nodes (a router that never
returns a terminal-bound label), `invoke` fails with the step-limit error
after executing exactly the ceiling's number of nodes — by construction the
fuel-indexed executor can never run forever. -/
theorem cycle_guard (g : Graph) (c : ℕ) (st : PState) :
    (reachesTerminal g c (.node g.entry) st = true →
      ∃ fs, invoke g c st = .ok fs) ∧
    (g.entry ∈ nodeKeys g →
      (∀ k s, k ∈ nodeKeys g →
        ∃ k2 s2, stepOnce g k s = .ok (.node k2, s2) ∧ k2 ∈ nodeKeys g) →
      invoke g c st = .error .stepLimitExceeded ∧
        (visits g c st).length = c) := by
  refine ⟨fun h => reaches_ok c _ st h, fun hentry H => ?_⟩
  exact runT_no_exit H c g.entry st hentry

/-- A one-node cycle whose router always loops back (a misconfigured
router that never returns a terminal-bound label). -/
def loopGraph : Graph where
  nodes := [("again", idleStep)]
  edges := [("again", .cond (fun _ => .ok "again") [("again", .node "again")])]
  entry := "again"

/-- The task5-shaped initial state used for the terminating half of the
C3 witness (`max_iterations = 1`). -/
def loopExitInit : PState := Task5.researchState "What is LangGraph?" "" 0 0 1 ""

/-- Witness for C3: the scenario loop graph with `max_iterations = 1`
terminates with a final state, while the always-looping graph fails with
the step-limit error after exactly 25 node executions. -/
theorem cycle_guard_witness :
    (∃ fs, invoke (Task5S.graph (fun _ => 0) "done") 25 loopExitInit
      = .ok fs) ∧
    (invoke loopGraph 25 [] = .error .stepLimitExceeded ∧
      (visits loopGraph 25 []).length = 25) :=
  ⟨(cycle_guard (Task5S.graph (fun _ => 0) "done") 25 loopExitInit).1 rfl,
   (cycle_guard loopGraph 25 []).2 (by simp [nodeKeys, loopGraph])
     (by
       intro k s hk
       simp only [nodeKeys, loopGraph, List.map, List.mem_singleton] at hk
       subst hk
       exact ⟨"again", mergeUpdate s [], rfl, by simp [nodeKeys, loopGraph]⟩)⟩

/-! ## Claim C5: the specification's loop scenario ends at iteration 2 -/

theorem q03_lt_q08 : (0.3 : ℚ) < 0.8 := by norm_num

theorem q08_le_q09 : (0.8 : ℚ) ≤ 0.9 := by norm_num

/-- The scenario graph's `search` node increments the iteration and writes
the simulated results. -/
theorem s_search_step (qual : ℕ → ℚ) (ans q r : String) (s : ℚ) (i m : ℕ)
    (a : String) :
    stepOnce (Task5S.graph qual ans) "search" (Task5.researchState q r s i m a)
      = .ok (.node "evaluate",
          Task5.researchState q (Task5.searchResults i q) s (i + 1) m a) := rfl

/-- Scenario `evaluate` step when the iteration cap is reached: the router
(consulted on the merged state) exits to `summarize`. -/
theorem s_eval_exit_max (qual : ℕ → ℚ) (ans q r : String) (s : ℚ) (i m : ℕ)
    (a : String) (h : m ≤ i) :
    stepOnce (Task5S.graph qual ans) "evaluate"
        (Task5.researchState q r s i m a)
      = .ok (.node "summarize", Task5.researchState q r (qual i) i m a) := by
  have hr : Task5.should_continue (Task5.researchState q r (qual i) i m a)
      = .ok "summarize" := by
    unfold Task5.should_continue
    rw [show getNat (Task5.researchState q r (qual i) i m a) "max_iterations"
          = m from rfl,
        show getNat (Task5.researchState q r (qual i) i m a) "iteration"
          = i from rfl,
        if_pos h]
  exact @stepOnce_cond (Task5S.graph qual ans) "evaluate"
    (Task5.researchState q r s i m a) [("quality_score", .vNum (qual i))]
    (Task5S.evaluateWith qual) Task5.should_continue Task5.labelMap
    "summarize" (.node "summarize") rfl rfl rfl hr rfl

/-- Scenario `evaluate` step when the cap is not reached but the merged
quality meets the threshold: the router exits to `summarize`. -/
theorem s_eval_exit_quality (qual : ℕ → ℚ) (ans q r : String) (s : ℚ)
    (i m : ℕ) (a : String) (h1 : ¬ m ≤ i) (h2 : (0.8 : ℚ) ≤ qual i) :
    stepOnce (Task5S.graph qual ans) "evaluate"
        (Task5.researchState q r s i m a)
      = .ok (.node "summarize", Task5.researchState q r (qual i) i m a) := by
  have hr : Task5.should_continue (Task5.researchState q r (qual i) i m a)
      = .ok "summarize" := by
    unfold Task5.should_continue
    rw [show getNat (Task5.researchState q r (qual i) i m a) "max_iterations"
          = m from rfl,
        show getNat (Task5.researchState q r (qual i) i m a) "iteration"
          = i from rfl,
        show getNum (Task5.researchState q r (qual i) i m a) "quality_score"
          = qual i from rfl,
        if_neg h1, if_pos h2]
  exact @stepOnce_cond (Task5S.graph qual ans) "evaluate"
    (Task5.researchState q r s i m a) [("quality_score", .vNum (qual i))]
    (Task5S.evaluateWith qual) Task5.should_continue Task5.labelMap
    "summarize" (.node "summarize") rfl rfl rfl hr rfl

/-- Scenario `evaluate` step when neither exit condition holds on the
merged state: the router loops back to `search`. -/
theorem s_eval_loop (qual : ℕ → ℚ) (ans q r : String) (s : ℚ) (i m : ℕ)
    (a : String) (h1 : ¬ m ≤ i) (h2 : ¬ (0.8 : ℚ) ≤ qual i) :
    stepOnce (Task5S.graph qual ans) "evaluate"
        (Task5.researchState q r s i m a)
      = .ok (.node "search", Task5.researchState q r (qual i) i m a) := by
  have hr : Task5.should_continue (Task5.researchState q r (qual i) i m a)
      = .ok "search" := by
    unfold Task5.should_continue
    rw [show getNat (Task5.researchState q r (qual i) i m a) "max_iterations"
          = m from rfl,
        show getNat (Task5.researchState q r (qual i) i m a) "iteration"
          = i from rfl,
        show getNum (Task5.researchState q r (qual i) i m a) "quality_score"
          = qual i from rfl,
        if_neg h1, if_neg h2]
  exact @stepOnce_cond (Task5S.graph qual ans) "evaluate"
    (Task5.researchState q r s i m a) [("quality_score", .vNum (qual i))]
    (Task5S.evaluateWith qual) Task5.should_continue Task5.labelMap
    "search" (.node "search") rfl rfl rfl hr rfl

/-- The scenario `summarize` step writes the answer and terminates. -/
theorem s_summarize_step (qual : ℕ → ℚ) (ans q r : String) (s : ℚ) (i m : ℕ)
    (a : String) :
    stepOnce (Task5S.graph qual ans) "summarize"
        (Task5.researchState q r s i m a)
      = .ok (.terminal, Task5.researchState q r s i m ans) := rfl

/-- C5: in the loop graph where `search` increments `iteration`,
`evaluate` sets the quality, and the router loops while the quality is
below 0.8 and the iteration below 3 — for any quality profile that first
reaches 0.8 on iteration 2, `invoke` terminates and the final `iteration`
is exactly 2. -/
theorem scenario_final_iteration (qual : ℕ → ℚ) (ans q r : String)
    (s : ℚ) (a : String) (h1 : qual 1 < 0.8) (h2 : (0.8 : ℚ) ≤ qual 2) :
    ∃ fs, invoke (Task5S.graph qual ans) 25 (Task5.researchState q r s 0 3 a)
        = .ok fs ∧ getNat fs "iteration" = 2 := by
  unfold invoke
  show ∃ fs, (runT (Task5S.graph qual ans) 25 (.node "search")
    (Task5.researchState q r s 0 3 a)).2 = .ok fs ∧ _
  have e1 := s_search_step qual ans q r s 0 3 a
  have e2 := s_eval_loop qual ans q (Task5.searchResults 0 q) s 1 3 a
    (by omega) (not_le.mpr h1)
  have e3 := s_search_step qual ans q (Task5.searchResults 0 q) (qual 1) 1 3 a
  have e4 := s_eval_exit_quality qual ans q (Task5.searchResults 1 q)
    (qual 1) 2 3 a (by omega) h2
  have e5 := s_summarize_step qual ans q (Task5.searchResults 1 q)
    (qual 2) 2 3 a
  rw [show (25 : ℕ) = 24 + 1 from rfl, runT_cons 24 e1,
      show (24 : ℕ) = 23 + 1 from rfl, runT_cons 23 e2,
      show (23 : ℕ) = 22 + 1 from rfl, runT_cons 22 e3,
      show (22 : ℕ) = 21 + 1 from rfl, runT_cons 21 e4,
      show (21 : ℕ) = 20 + 1 from rfl, runT_cons 20 e5, runT_terminal]
  exact ⟨Task5.researchState q (Task5.searchResults 1 q) (qual 2) 2 3 ans,
    rfl, rfl⟩

/-- A quality profile that first reaches 0.8 on iteration 2. -/
def qualProfile : ℕ → ℚ := fun n => if n == 2 then 0.9 else 0.3

/-- Witness for C5 with a concrete profile: the run ends at iteration 2. -/
theorem scenario_final_iteration_witness :
    ∃ fs, invoke (Task5S.graph qualProfile "done") 25
        (Task5.researchState "What is LangGraph?" "" 0 0 3 "") = .ok fs ∧
      getNat fs "iteration" = 2 :=
  scenario_final_iteration qualProfile "done" "What is LangGraph?" "" 0 ""
    (by simp [qualProfile, q03_lt_q08]) (by simp [qualProfile, q08_le_q09])

/-! ## Claim C9: the task5 loop needs no engine ceiling -/

theorem matchesAt_append {n l1 : List Char} (l2 : List Char)
    (h : matchesAt n l1 = true) : matchesAt n (l1 ++ l2) = true := by
  induction n generalizing l1 with
  | nil => rfl
  | cons a as ih =>
    cases l1 with
    | nil => simp [matchesAt] at h
    | cons b bs =>
      simp only [matchesAt, Bool.and_eq_true, List.cons_append] at h ⊢
      exact ⟨h.1, ih h.2⟩

theorem charsContains_append {n l1 : List Char} (l2 : List Char)
    (h : charsContains n l1 = true) : charsContains n (l1 ++ l2) = true := by
  induction l1 with
  | nil =>
    cases n with
    | nil =>
      cases l2 with
      | nil => rfl
      | cons c rest => simp [charsContains, matchesAt]
    | cons a as => simp [charsContains] at h
  | cons b bs ih =>
    simp only [charsContains, Bool.or_eq_true, List.cons_append] at h ⊢
    rcases h with h | h
    · exact Or.inl (matchesAt_append l2 h)
    · exact Or.inr (ih h)

/-- The comprehensive-results template contains "comprehensive" after
lowering, whatever the query. -/
theorem contains_comprehensive (q : String) :
    containsSub "comprehensive"
      (lower ("Comprehensive results for: " ++ q ++
        " with citations and examples")) = true := by
  unfold containsSub lower
  show charsContains "comprehensive".toList
    ((("Comprehensive results for: " ++ q ++
      " with citations and examples").toList).map Char.toLower) = true
  rw [show ("Comprehensive results for: " ++ q ++
        " with citations and examples").toList
      = "Comprehensive results for: ".toList ++
        (q.toList ++ " with citations and examples".toList) from by
      simp [String.toList, String.data_append],
    List.map_append]
  exact charsContains_append _ (by decide)

/-- The third search's results always meet the quality threshold. -/
theorem evalScore_two (q : String) :
    (0.8 : ℚ) ≤ Task5.evalScore (Task5.searchResults 2 q) := by
  have hc : containsSub "comprehensive"
      (lower (Task5.searchResults 2 q)) = true := by
    rw [show Task5.searchResults 2 q
        = "Comprehensive results for: " ++ q ++
          " with citations and examples" from rfl]
    exact contains_comprehensive q
  unfold Task5.evalScore
  rw [if_pos hc]
  exact q08_le_q09

/-- The task5 `search` node increments the iteration and writes the
simulated results for the current iteration index. -/
theorem t5_search_step (llmA : String → String) (q r : String) (s : ℚ)
    (i m : ℕ) (a : String) :
    stepOnce (Task5.graph llmA) "search" (Task5.researchState q r s i m a)
      = .ok (.node "evaluate",
          Task5.researchState q (Task5.searchResults i q) s (i + 1) m a) := rfl

/-- Task5 `evaluate` step when the iteration cap is reached. -/
theorem t5_eval_exit_max (llmA : String → String) (q r : String) (s : ℚ)
    (i m : ℕ) (a : String) (h : m ≤ i) :
    stepOnce (Task5.graph llmA) "evaluate" (Task5.researchState q r s i m a)
      = .ok (.node "summarize",
          Task5.researchState q r (Task5.evalScore r) i m a) := by
  have hr : Task5.should_continue
      (Task5.researchState q r (Task5.evalScore r) i m a) = .ok "summarize" := by
    unfold Task5.should_continue
    rw [show getNat (Task5.researchState q r (Task5.evalScore r) i m a)
          "max_iterations" = m from rfl,
        show getNat (Task5.researchState q r (Task5.evalScore r) i m a)
          "iteration" = i from rfl,
        if_pos h]
  exact @stepOnce_cond (Task5.graph llmA) "evaluate"
    (Task5.researchState q r s i m a)
    [("quality_score", .vNum (Task5.evalScore r))]
    Task5.evaluate_node Task5.should_continue Task5.labelMap
    "summarize" (.node "summarize") rfl rfl rfl hr rfl

/-- Task5 `evaluate` step when the merged quality meets the threshold. -/
theorem t5_eval_exit_quality (llmA : String → String) (q r : String) (s : ℚ)
    (i m : ℕ) (a : String) (h1 : ¬ m ≤ i)
    (h2 : (0.8 : ℚ) ≤ Task5.evalScore r) :
    stepOnce (Task5.graph llmA) "evaluate" (Task5.researchState q r s i m a)
      = .ok (.node "summarize",
          Task5.researchState q r (Task5.evalScore r) i m a) := by
  have hr : Task5.should_continue
      (Task5.researchState q r (Task5.evalScore r) i m a) = .ok "summarize" := by
    unfold Task5.should_continue
    rw [show getNat (Task5.researchState q r (Task5.evalScore r) i m a)
          "max_iterations" = m from rfl,
        show getNat (Task5.researchState q r (Task5.evalScore r) i m a)
          "iteration" = i from rfl,
        show getNum (Task5.researchState q r (Task5.evalScore r) i m a)
          "quality_score" = Task5.evalScore r from rfl,
        if_neg h1, if_pos h2]
  exact @stepOnce_cond (Task5.graph llmA) "evaluate"
    (Task5.researchState q r s i m a)
    [("quality_score", .vNum (Task5.evalScore r))]
    Task5.evaluate_node Task5.should_continue Task5.labelMap
    "summarize" (.node "summarize") rfl rfl rfl hr rfl

/-- Task5 `evaluate` step when neither exit condition holds. -/
theorem t5_eval_loop (llmA : String → String) (q r : String) (s : ℚ)
    (i m : ℕ) (a : String) (h1 : ¬ m ≤ i)
    (h2 : ¬ (0.8 : ℚ) ≤ Task5.evalScore r) :
    stepOnce (Task5.graph llmA) "evaluate" (Task5.researchState q r s i m a)
      = .ok (.node "search",
          Task5.researchState q r (Task5.evalScore r) i m a) := by
  have hr : Task5.should_continue
      (Task5.researchState q r (Task5.evalScore r) i m a) = .ok "search" := by
    unfold Task5.should_continue
    rw [show getNat (Task5.researchState q r (Task5.evalScore r) i m a)
          "max_iterations" = m from rfl,
        show getNat (Task5.researchState q r (Task5.evalScore r) i m a)
          "iteration" = i from rfl,
        show getNum (Task5.researchState q r (Task5.evalScore r) i m a)
          "quality_score" = Task5.evalScore r from rfl,
        if_neg h1, if_neg h2]
  exact @stepOnce_cond (Task5.graph llmA) "evaluate"
    (Task5.researchState q r s i m a)
    [("quality_score", .vNum (Task5.evalScore r))]
    Task5.evaluate_node Task5.should_continue Task5.labelMap
    "search" (.node "search") rfl rfl rfl hr rfl

/-- The task5 `summarize` node writes the model's answer and terminates. -/
theorem t5_summarize_step (llmA : String → String) (q r : String) (s : ℚ)
    (i m : ℕ) (a : String) :
    stepOnce (Task5.graph llmA) "summarize" (Task5.researchState q r s i m a)
      = .ok (.terminal, Task5.researchState q r s i m
          (llmA (Task5.summaryPrompt (Task5.researchState q r s i m a)))) := rfl

/-- The tail of every task5 run: one `summarize` step, then terminal. -/
theorem t5_tail (llmA : String → String) (q r : String) (s : ℚ) (i m : ℕ)
    (a : String) (f : ℕ) :
    runT (Task5.graph llmA) (f + 1) (.node "summarize")
        (Task5.researchState q r s i m a)
      = (["summarize"], .ok (Task5.researchState q r s i m
          (llmA (Task5.summaryPrompt (Task5.researchState q r s i m a))))) := by
  rw [runT_cons f (t5_summarize_step llmA q r s i m a), runT_terminal]

/-- C9: the task5 loop terminates for every initial state with
`iteration = 0` and `max_iterations = m ≥ 1` without relying on the engine
step ceiling: `search_node` always increments `iteration` by exactly 1,
`should_continue` returns `"summarize"` whenever the iteration has reached
the cap, the invocation returns a final state (the ceiling is never hit),
`search` executes at most `m` times, and the final `iteration` is at most
`m`. -/
theorem task5_loop_bounded (llmA : String → String) (q r : String) (s : ℚ)
    (a : String) (m : ℕ) (hm : 1 ≤ m) :
    (∀ st, ∃ u, Task5.search_node st = .ok u ∧
      u.lookup "iteration" = some (.vNat (getNat st "iteration" + 1))) ∧
    (∀ st, getNat st "max_iterations" ≤ getNat st "iteration" →
      Task5.should_continue st = .ok "summarize") ∧
    ∃ fs, invoke (Task5.graph llmA) 25 (Task5.researchState q r s 0 m a)
        = .ok fs ∧
      getNat fs "iteration" ≤ m ∧
      (visits (Task5.graph llmA) 25
        (Task5.researchState q r s 0 m a)).count "search" ≤ m := by
  refine ⟨fun st => ⟨_, rfl, rfl⟩, fun st h => ?_, ?_⟩
  · unfold Task5.should_continue
    rw [if_pos h]
  unfold invoke visits
  show ∃ fs, (runT (Task5.graph llmA) 25 (.node "search")
      (Task5.researchState q r s 0 m a)).2 = .ok fs ∧
    getNat fs "iteration" ≤ m ∧
    ((runT (Task5.graph llmA) 25 (.node "search")
      (Task5.researchState q r s 0 m a)).1).count "search" ≤ m
  match m, hm with
  | 1, _ =>
    rw [show (25 : ℕ) = 24 + 1 from rfl,
        runT_cons 24 (t5_search_step llmA q r s 0 1 a),
        show (24 : ℕ) = 23 + 1 from rfl,
        runT_cons 23 (t5_eval_exit_max llmA q (Task5.searchResults 0 q) s 1 1 a
          (le_refl 1)),
        show (23 : ℕ) = 22 + 1 from rfl,
        t5_tail llmA q (Task5.searchResults 0 q)
          (Task5.evalScore (Task5.searchResults 0 q)) 1 1 a 22]
    refine ⟨_, rfl, le_refl 1, ?_⟩
    show (["search", "evaluate", "summarize"] : List String).count "search" ≤ 1
    decide
  | 2, _ =>
    by_cases hq1 : (0.8 : ℚ) ≤ Task5.evalScore (Task5.searchResults 0 q)
    · rw [show (25 : ℕ) = 24 + 1 from rfl,
          runT_cons 24 (t5_search_step llmA q r s 0 2 a),
          show (24 : ℕ) = 23 + 1 from rfl,
          runT_cons 23 (t5_eval_exit_quality llmA q (Task5.searchResults 0 q)
            s 1 2 a (by omega) hq1),
          show (23 : ℕ) = 22 + 1 from rfl,
          t5_tail llmA q (Task5.searchResults 0 q)
            (Task5.evalScore (Task5.searchResults 0 q)) 1 2 a 22]
      refine ⟨_, rfl, ?_, ?_⟩
      · show (1 : ℕ) ≤ 2
        decide
      · show (["search", "evaluate", "summarize"] : List String).count
          "search" ≤ 2
        decide
    · rw [show (25 : ℕ) = 24 + 1 from rfl,
          runT_cons 24 (t5_search_step llmA q r s 0 2 a),
          show (24 : ℕ) = 23 + 1 from rfl,
          runT_cons 23 (t5_eval_loop llmA q (Task5.searchResults 0 q)
            s 1 2 a (by omega) hq1),
          show (23 : ℕ) = 22 + 1 from rfl,
          runT_cons 22 (t5_search_step llmA q (Task5.searchResults 0 q)
            (Task5.evalScore (Task5.searchResults 0 q)) 1 2 a),
          show (22 : ℕ) = 21 + 1 from rfl,
          runT_cons 21 (t5_eval_exit_max llmA q (Task5.searchResults 1 q)
            (Task5.evalScore (Task5.searchResults 0 q)) 2 2 a (le_refl 2)),
          show (21 : ℕ) = 20 + 1 from rfl,
          t5_tail llmA q (Task5.searchResults 1 q)
            (Task5.evalScore (Task5.searchResults 1 q)) 2 2 a 20]
      refine ⟨_, rfl, le_refl 2, ?_⟩
      show (["search", "evaluate", "search", "evaluate", "summarize"] :
        List String).count "search" ≤ 2
      decide
  | k + 3, _ =>
    by_cases hq1 : (0.8 : ℚ) ≤ Task5.evalScore (Task5.searchResults 0 q)
    · rw [show (25 : ℕ) = 24 + 1 from rfl,
          runT_cons 24 (t5_search_step llmA q r s 0 (k + 3) a),
          show (24 : ℕ) = 23 + 1 from rfl,
          runT_cons 23 (t5_eval_exit_quality llmA q (Task5.searchResults 0 q)
            s 1 (k + 3) a (by omega) hq1),
          show (23 : ℕ) = 22 + 1 from rfl,
          t5_tail llmA q (Task5.searchResults 0 q)
            (Task5.evalScore (Task5.searchResults 0 q)) 1 (k + 3) a 22]
      refine ⟨_, rfl, ?_, ?_⟩
      · show (1 : ℕ) ≤ k + 3
        omega
      · show (["search", "evaluate", "summarize"] : List String).count
          "search" ≤ k + 3
        have hc : (["search", "evaluate", "summarize"] :
          List String).count "search" = 1 := by decide
        omega
    · by_cases hq2 : (0.8 : ℚ) ≤ Task5.evalScore (Task5.searchResults 1 q)
      · rw [show (25 : ℕ) = 24 + 1 from rfl,
            runT_cons 24 (t5_search_step llmA q r s 0 (k + 3) a),
            show (24 : ℕ) = 23 + 1 from rfl,
            runT_cons 23 (t5_eval_loop llmA q (Task5.searchResults 0 q)
              s 1 (k + 3) a (by omega) hq1),
            show (23 : ℕ) = 22 + 1 from rfl,
            runT_cons 22 (t5_search_step llmA q (Task5.searchResults 0 q)
              (Task5.evalScore (Task5.searchResults 0 q)) 1 (k + 3) a),
            show (22 : ℕ) = 21 + 1 from rfl,
            runT_cons 21 (t5_eval_exit_quality llmA q
              (Task5.searchResults 1 q)
              (Task5.evalScore (Task5.searchResults 0 q)) 2 (k + 3) a
              (by omega) hq2),
            show (21 : ℕ) = 20 + 1 from rfl,
            t5_tail llmA q (Task5.searchResults 1 q)
              (Task5.evalScore (Task5.searchResults 1 q)) 2 (k + 3) a 20]
        refine ⟨_, rfl, ?_, ?_⟩
        · show (2 : ℕ) ≤ k + 3
          omega
        · show (["search", "evaluate", "search", "evaluate", "summarize"] :
            List String).count "search" ≤ k + 3
          have hc : (["search", "evaluate", "search", "evaluate",
            "summarize"] : List String).count "search" = 2 := by decide
          omega
      · have hloop2 := t5_eval_loop llmA q (Task5.searchResults 1 q)
          (Task5.evalScore (Task5.searchResults 0 q)) 2 (k + 3) a
          (by omega) hq2
        have hfinal : stepOnce (Task5.graph llmA) "evaluate"
            (Task5.researchState q (Task5.searchResults 2 q)
              (Task5.evalScore (Task5.searchResults 1 q)) 3 (k + 3) a)
            = .ok (.node "summarize",
                Task5.researchState q (Task5.searchResults 2 q)
                  (Task5.evalScore (Task5.searchResults 2 q)) 3 (k + 3) a) := by
          by_cases h3 : (k + 3 : ℕ) ≤ 3
          · exact t5_eval_exit_max llmA q (Task5.searchResults 2 q)
              (Task5.evalScore (Task5.searchResults 1 q)) 3 (k + 3) a h3
          · exact t5_eval_exit_quality llmA q (Task5.searchResults 2 q)
              (Task5.evalScore (Task5.searchResults 1 q)) 3 (k + 3) a h3
              (evalScore_two q)
        rw [show (25 : ℕ) = 24 + 1 from rfl,
            runT_cons 24 (t5_search_step llmA q r s 0 (k + 3) a),
            show (24 : ℕ) = 23 + 1 from rfl,
            runT_cons 23 (t5_eval_loop llmA q (Task5.searchResults 0 q)
              s 1 (k + 3) a (by omega) hq1),
            show (23 : ℕ) = 22 + 1 from rfl,
            runT_cons 22 (t5_search_step llmA q (Task5.searchResults 0 q)
              (Task5.evalScore (Task5.searchResults 0 q)) 1 (k + 3) a),
            show (22 : ℕ) = 21 + 1 from rfl,
            runT_cons 21 hloop2,
            show (21 : ℕ) = 20 + 1 from rfl,
            runT_cons 20 (t5_search_step llmA q (Task5.searchResults 1 q)
              (Task5.evalScore (Task5.searchResults 1 q)) 2 (k + 3) a),
            show (20 : ℕ) = 19 + 1 from rfl,
            runT_cons 19 hfinal,
            show (19 : ℕ) = 18 + 1 from rfl,
            t5_tail llmA q (Task5.searchResults 2 q)
              (Task5.evalScore (Task5.searchResults 2 q)) 3 (k + 3) a 18]
        refine ⟨_, rfl, ?_, ?_⟩
        · show (3 : ℕ) ≤ k + 3
          omega
        · show (["search", "evaluate", "search", "evaluate", "search",
            "evaluate", "summarize"] : List String).count "search" ≤ k + 3
          have hc : (["search", "evaluate", "search", "evaluate", "search",
            "evaluate", "summarize"] : List String).count "search" = 3 := by
            decide
          omega

/-- Witness for C9 with the demo's own parameters (`max_iterations = 3`). -/
theorem task5_loop_bounded_witness :
    (∀ st, ∃ u, Task5.search_node st = .ok u ∧
      u.lookup "iteration" = some (.vNat (getNat st "iteration" + 1))) ∧
    (∀ st, getNat st "max_iterations" ≤ getNat st "iteration" →
      Task5.should_continue st = .ok "summarize") ∧
    ∃ fs, invoke (Task5.graph (fun _ => "answer")) 25
        (Task5.researchState "What is LangGraph?" "" 0 0 3 "") = .ok fs ∧
      getNat fs "iteration" ≤ 3 ∧
      (visits (Task5.graph (fun _ => "answer")) 25
        (Task5.researchState "What is LangGraph?" "" 0 0 3 "")).count
          "search" ≤ 3 :=
  task5_loop_bounded (fun _ => "answer") "What is LangGraph?" "" 0 "" 3
    (by decide)

/-! ## Claim C6: step functions must not mutate the given state

The task7 `search_node` obtains the very list object stored in the state
(`state.get("search_results", [])`) and appends to it, so the given state
is mutated in place — contradicting the contract that the state passed in
is unchanged and all changes flow through the returned partial update. -/

/-- A well-shaped task7 `MemoryState` with one pending question. -/
def task7FailInput : PState :=
  [("topic", .vStr "AI"), ("questions", .vList ["q1"]),
   ("search_results", .vList []), ("key_points", .vList []),
   ("knowledge_base", .vStr ""), ("operations_count", .vNat 0)]

set_option maxRecDepth 8192 in
/-- C6 is violated by the code: after the task7 `search_node` call the
state object differs from the state that was passed in (its
`search_results` list has been appended to in place, the same list that is
also returned in the partial update). -/
theorem task7_search_node_mutates :
    (Task7.search_node_run task7FailInput).1 ≠ task7FailInput ∧
    (Task7.search_node_run task7FailInput).1.lookup "search_results"
      = some (.vList
          ["Result for 'q1...': Found relevant information about AI"]) ∧
    (Task7.search_node_run task7FailInput).2.lookup "search_results"
      = some (.vList
          ["Result for 'q1...': Found relevant information about AI"]) := by
  refine ⟨fun heq => ?_, rfl, rfl⟩
  have h1 : (Task7.search_node_run task7FailInput).1.lookup "search_results"
      = some (.vList
          ["Result for 'q1...': Found relevant information about AI"]) := rfl
  rw [heq] at h1
  exact absurd h1 (by decide)

end Workshop
